import Mathlib

/-!
Verification development for the GitHub User Finder client
(`src/main.js`).  The application consists of three pieces:

* a form-submission listener that trims the query and, when it is
  non-empty, starts the fetch workflow;
* `getUserProfile`, which performs two sequential HTTP requests
  (profile lookup, then repository listing) and on any thrown error
  replaces the display target with a fixed error panel;
* `renderProfile`, which builds one HTML string from the profile and
  repository data (template-literal concatenation) and assigns it to
  the display target.

The embedding below models strings as Lean `String`, the network as an
oracle giving the outcome of each of the two requests, JSON bodies as
typed records (a body of `none` stands for a payload that cannot be
parsed as the expected structured format), and the DOM display target
as an explicit string threaded through the controller.
-/

/-- JS string truthiness based trim guard uses `String.prototype.trim`;
we model it directly on the character list: whitespace characters are
removed from both ends. -/
def jsTrim (s : String) : String :=
  ⟨((s.data.dropWhile Char.isWhitespace).reverse.dropWhile Char.isWhitespace).reverse⟩

/-- JS logical-or fallback on an optional string field, `v || fb`.
A JSON `null` or absent field maps to `none`; the empty string is
falsy in JS, so a present empty string also selects the fallback. -/
def jsOrElse (v : Option String) (fb : String) : String :=
  match v with
  | none => fb
  | some s => if s = "" then fb else s

/-- Concatenation of a list of string fragments; models both
template-literal concatenation and `Array.prototype.join("")`. -/
def strJoin : List String → String
  | [] => ""
  | x :: xs => x ++ strJoin xs

/-- Substring occurrence: `pat` occurs inside `s`. -/
def containsStr (s pat : String) : Prop :=
  ∃ a b : String, s = a ++ pat ++ b

/-- JSON object returned by `GET /users/{username}`, restricted to the
fields the application reads.  Optional fields are `Option`-valued;
numeric counters are naturals. -/
structure UserJson where
  login : String
  name : Option String
  avatar_url : String
  bio : Option String
  location : Option String
  created_at : String
  public_repos : Nat
  followers : Nat
  following : Nat
  html_url : String
deriving DecidableEq

/-- JSON object for one element of the array returned by
`GET /users/{username}/repos`, restricted to the fields the
application reads. -/
structure RepoJson where
  name : String
  html_url : String
  visibility : String
  description : Option String
  language : Option String
  stargazers_count : Nat
  forks_count : Nat
  updated_at : String
deriving DecidableEq

/-- Numeric value of a decimal digit character. -/
def digitVal (c : Char) : Nat := c.toNat - 48

/-- Decimal reading of a digit list. -/
def digitsToNat (cs : List Char) : Nat :=
  cs.foldl (fun acc c => acc * 10 + digitVal c) 0

/-- Year field of an ISO-8601 timestamp string `YYYY-MM-DDThh:mm:ssZ`. -/
def isoYear (iso : String) : Nat := digitsToNat (iso.data.take 4)

/-- Month field of an ISO-8601 timestamp string. -/
def isoMonth (iso : String) : Nat := digitsToNat ((iso.data.drop 5).take 2)

/-- Day field of an ISO-8601 timestamp string. -/
def isoDay (iso : String) : Nat := digitsToNat ((iso.data.drop 8).take 2)

/-- Long month name of the en-US locale. -/
def monthLongName : Nat → String
  | 1 => "January"
  | 2 => "February"
  | 3 => "March"
  | 4 => "April"
  | 5 => "May"
  | 6 => "June"
  | 7 => "July"
  | 8 => "August"
  | 9 => "September"
  | 10 => "October"
  | 11 => "November"
  | 12 => "December"
  | _ => "Invalid Date"

/-- Short month name of the en-US locale. -/
def monthShortName : Nat → String
  | 1 => "Jan"
  | 2 => "Feb"
  | 3 => "Mar"
  | 4 => "Apr"
  | 5 => "May"
  | 6 => "Jun"
  | 7 => "Jul"
  | 8 => "Aug"
  | 9 => "Sep"
  | 10 => "Oct"
  | 11 => "Nov"
  | 12 => "Dec"
  | _ => "Invalid Date"

/-- Browser collaborator `new Date(iso).toLocaleDateString("en-US",
\x7bmonth: "long", day: "numeric", year: "numeric"\x7d)`, modelled for a
fixed en-US locale and UTC timezone on ISO-8601 API timestamps. -/
def formatLongDate (iso : String) : String :=
  monthLongName (isoMonth iso) ++ " " ++ toString (isoDay iso) ++ ", " ++ toString (isoYear iso)

/-- Browser collaborator `new Date(iso).toLocaleDateString("en-US",
\x7bmonth: "short", day: "numeric", year: "numeric"\x7d)`, modelled for a
fixed en-US locale and UTC timezone on ISO-8601 API timestamps. -/
def formatShortDate (iso : String) : String :=
  monthShortName (isoMonth iso) ++ " " ++ toString (isoDay iso) ++ ", " ++ toString (isoYear iso)

/-- Language indicator fragment of a repository card, from the ternary
interpolation in `renderProfile`: when `repo.language` is truthy it is
a small coloured-dot div holding the language name, otherwise it is
the empty string (no element at all). -/
def languageHTML (repo : RepoJson) : String :=
  match repo.language with
  | none => ""
  | some lang =>
    if lang = "" then ""
    else "<div class=\"flex items-center gap-1.5\"><span class=\"w-3 h-3 rounded-full bg-yellow-400\"></span>" ++ lang ++ "</div>"

/-- Ordered fragments of one repository card template literal in
`renderProfile` (`repos.map((repo) => ...)`), interpolations split out. -/
def repoCardParts (repo : RepoJson) : List String :=
  let updatedDate := formatShortDate repo.updated_at
  ["\n      <a href=\"",
    repo.html_url,
    "\" target=\"_blank\" class=\"bg-[#161b22] p-6 rounded-xl border border-[#30363d] hover:border-[#58a6ff] transition-all group flex flex-col h-full shadow-sm text-left\">\n        \n        <div class=\"flex justify-between items-start mb-3\">\n          <h3 class=\"text-[#58a6ff] font-bold text-xl group-hover:underline truncate pr-2\">",
    repo.name,
    "</h3>\n          <span class=\"text-xs border border-[#30363d] text-[#8b949e] px-2.5 py-0.5 rounded-full font-medium whitespace-nowrap\">",
    repo.visibility,
    "</span>\n        </div>\n        \n        <p class=\"text-[#8b949e] text-base mb-6 line-clamp-2 flex-grow\">",
    jsOrElse repo.description "No description provided.",
    "</p>\n        \n        <div class=\"flex items-center gap-5 text-sm text-[#8b949e] mt-auto\">\n          ",
    languageHTML repo,
    "\n          \n          <div class=\"flex items-center gap-1.5 hover:text-[#58a6ff]\">\n            <svg aria-hidden=\"true\" height=\"16\" viewBox=\"0 0 16 16\" width=\"16\" class=\"fill-current\"><path d=\"M8 .25a.75.75 0 0 1 .673.418l1.882 3.815 4.21.612a.75.75 0 0 1 .416 1.279l-3.046 2.97.719 4.192a.75.75 0 0 1-1.088.791L8 12.347l-3.766 1.98a.75.75 0 0 1-1.088-.79l.72-4.194L.818 6.374a.75.75 0 0 1 .416-1.28l4.21-.611L7.327.668A.75.75 0 0 1 8 .25Z\"></path></svg>\n            ",
    toString repo.stargazers_count,
    "\n          </div>\n          \n          <div class=\"flex items-center gap-1.5 hover:text-[#58a6ff]\">\n            <svg aria-hidden=\"true\" height=\"16\" viewBox=\"0 0 16 16\" width=\"16\" class=\"fill-current\"><path d=\"M5 5.372v.878c0 .414.336.75.75.75h4.5a.75.75 0 0 0 .75-.75v-.878a2.25 2.25 0 1 1 1.5 0v.878a2.25 2.25 0 0 1-2.25 2.25h-1.5v2.128a2.251 2.251 0 1 1-1.5 0V8.5h-1.5A2.25 2.25 0 0 1 3.5 6.25v-.878a2.25 2.25 0 1 1 1.5 0ZM5 3.25a.75.75 0 1 0-1.5 0 .75.75 0 0 0 1.5 0Zm6.75.75a.75.75 0 1 0 0-1.5.75.75 0 0 0 0 1.5Zm-3 8.75a.75.75 0 1 0-1.5 0 .75.75 0 0 0 1.5 0Z\"></path></svg>\n            ",
    toString repo.forks_count,
    "\n          </div>\n          \n          <div class=\"ml-auto whitespace-nowrap text-xs\">Updated on ",
    updatedDate,
    "</div>\n        </div>\n      </a>\n    "]

/-- One repository card: the card template literal, concatenated. -/
def renderRepoCard (repo : RepoJson) : String := strJoin (repoCardParts repo)

/-- The `reposHTML` constant of `renderProfile`:
`repos.map((repo) => ...).join("")`. -/
def reposHTML (repos : List RepoJson) : String :=
  strJoin (repos.map renderRepoCard)

/-- Ordered fragments of the main injected template literal of
`renderProfile`, interpolations split out in source order. -/
def profileParts (user : UserJson) (repos : List RepoJson) : List String :=
  let joinedDate := formatLongDate user.created_at
  ["\n    <div class=\"w-full max-w-7xl mx-auto space-y-8\">\n      \n      <div class=\"bg-[#161b22] rounded-xl overflow-hidden shadow-xl border border-[#30363d]\">\n        \n        <div class=\"h-32 bg-[#161b22] relative\">\n            <div class=\"absolute top-4 right-4\">\n                <a href=\"",
    user.html_url,
    "\" target=\"_blank\" class=\"flex items-center gap-2 bg-black/30 hover:bg-black/50 text-white px-3 py-1.5 rounded-md text-xs font-semibold transition-all border border-white/20\">\n                    View on GitHub\n                    <svg xmlns=\"http://www.w3.org/2000/svg\" fill=\"none\" viewBox=\"0 0 24 24\" stroke-width=\"2\" stroke=\"currentColor\" class=\"w-4 h-4\"><path stroke-linecap=\"round\" stroke-linejoin=\"round\" d=\"M13.5 6H5.25A2.25 2.25 0 003 8.25v10.5A2.25 2.25 0 005.25 21h10.5A2.25 2.25 0 0018 18.75V10.5m-10.5 6L21 3m0 0h-5.25M21 3v5.25\" /></svg>\n                </a>\n            </div>\n        </div>\n\n        <div class=\"px-6 pb-6 md:px-10 md:pb-10\">\n          <div class=\"flex flex-col md:flex-row gap-8 relative\">\n              \n              <div class=\"-mt-12 flex-shrink-0\">\n                  <img src=\"",
    user.avatar_url,
    "\" alt=\"",
    user.login,
    "\" class=\"w-32 h-32 rounded-full border-[4px] border-[#161b22] bg-[#161b22] shadow-sm\">\n              </div>\n              \n              <div class=\"flex-1 mt-3 w-full text-left\">\n                  \n                  <div class=\"flex flex-col md:flex-row justify-between items-start md:items-center mb-3\">\n                      <div>\n                          <h2 class=\"text-4xl font-bold text-[#f0f6fc] tracking-tight\">",
    jsOrElse user.name user.login,
    "</h2>\n                          <p class=\"text-[#58a6ff] text-xl\">@",
    user.login,
    "</p>\n                      </div>\n                      <div class=\"mt-2 md:mt-0 text-[#8b949e] text-sm bg-[#0d1117] px-3 py-1.5 rounded-full border border-[#30363d] shadow-sm\">\n                          Joined on ",
    joinedDate,
    "\n                      </div>\n                  </div>\n                  \n                  <p class=\"text-[#c9d1d9] italic leading-relaxed text-lg mb-8 max-w-4xl\">",
    jsOrElse user.bio "This user has no bio.",
    "</p>\n                  \n                  <div class=\"grid grid-cols-2 md:grid-cols-4 gap-6\">\n                      <div class=\"bg-[#0d1117] p-5 rounded-lg flex flex-col items-center justify-center border border-[#30363d]\">\n                          <div class=\"mb-2 text-[#58a6ff]\"><svg xmlns=\"http://www.w3.org/2000/svg\" fill=\"none\" viewBox=\"0 0 24 24\" stroke-width=\"1.5\" stroke=\"currentColor\" class=\"w-7 h-7\"><path stroke-linecap=\"round\" stroke-linejoin=\"round\" d=\"M12 6.042A8.967 8.967 0 006 3.75c-1.052 0-2.062.18-3 .512v14.25A8.987 8.987 0 016 18c2.305 0 4.408.867 6 2.292m0-14.25a8.966 8.966 0 016-2.292c1.052 0 2.062.18 3 .512v14.25A8.987 8.987 0 0018 18a8.967 8.967 0 00-6 2.292m0-14.25v14.25\" /></svg></div>\n                          <span class=\"text-2xl font-bold text-[#f0f6fc]\">",
    toString user.public_repos,
    "</span>\n                          <span class=\"text-xs uppercase tracking-wider text-[#8b949e] font-semibold mt-1\">Repos</span>\n                      </div>\n\n                      <div class=\"bg-[#0d1117] p-5 rounded-lg flex flex-col items-center justify-center border border-[#30363d]\">\n                          <div class=\"mb-2 text-[#3fb950]\"><svg xmlns=\"http://www.w3.org/2000/svg\" fill=\"none\" viewBox=\"0 0 24 24\" stroke-width=\"1.5\" stroke=\"currentColor\" class=\"w-7 h-7\"><path stroke-linecap=\"round\" stroke-linejoin=\"round\" d=\"M15 19.128a9.38 9.38 0 002.625.372 9.337 9.337 0 004.121-.952 4.125 4.125 0 00-7.533-2.493M15 19.128v-.003c0-1.113-.285-2.16-.786-3.07M15 19.128v.106A12.318 12.318 0 018.624 21c-2.331 0-4.512-.645-6.374-1.766l-.001-.109a6.375 6.375 0 0111.964-3.07M12 6.375a3.375 3.375 0 11-6.75 0 3.375 3.375 0 016.75 0zm8.25 2.25a2.625 2.625 0 11-5.25 0 2.625 2.625 0 015.25 0z\" /></svg></div>\n                          <span class=\"text-2xl font-bold text-[#f0f6fc]\">",
    toString user.followers,
    "</span>\n                          <span class=\"text-xs uppercase tracking-wider text-[#8b949e] font-semibold mt-1\">Followers</span>\n                      </div>\n\n                      <div class=\"bg-[#0d1117] p-5 rounded-lg flex flex-col items-center justify-center border border-[#30363d]\">\n                          <div class=\"mb-2 text-[#a371f7]\"><svg xmlns=\"http://www.w3.org/2000/svg\" fill=\"none\" viewBox=\"0 0 24 24\" stroke-width=\"1.5\" stroke=\"currentColor\" class=\"w-7 h-7\"><path stroke-linecap=\"round\" stroke-linejoin=\"round\" d=\"M19 7.5v3m0 0v3m0-3h3m-3 0h-3m-2.25-4.125a3.375 3.375 0 11-6.75 0 3.375 3.375 0 016.75 0zM4 19.235v-.11a6.375 6.375 0 0112.75 0v.109A12.318 12.318 0 0110.374 21c-2.331 0-4.512-.645-6.374-1.766z\" /></svg></div>\n                          <span class=\"text-2xl font-bold text-[#f0f6fc]\">",
    toString user.following,
    "</span>\n                          <span class=\"text-xs uppercase tracking-wider text-[#8b949e] font-semibold mt-1\">Following</span>\n                      </div>\n\n                      <div class=\"bg-[#0d1117] p-5 rounded-lg flex flex-col items-center justify-center border border-[#30363d]\">\n                          <div class=\"mb-2 text-[#f78166]\"><svg xmlns=\"http://www.w3.org/2000/svg\" fill=\"none\" viewBox=\"0 0 24 24\" stroke-width=\"1.5\" stroke=\"currentColor\" class=\"w-7 h-7\"><path stroke-linecap=\"round\" stroke-linejoin=\"round\" d=\"M15 10.5a3 3 0 11-6 0 3 3 0 016 0z\" />\n                                  <path stroke-linecap=\"round\" stroke-linejoin=\"round\" d=\"M19.5 10.5c0 7.142-7.5 11.25-7.5 11.25S4.5 17.642 4.5 10.5a7.5 7.5 0 0115 0z\" /></svg></div>\n                          <span class=\"text-lg font-bold text-[#f0f6fc] truncate max-w-full px-1\">",
    jsOrElse user.location "Earth",
    "</span>\n                          <span class=\"text-xs uppercase tracking-wider text-[#8b949e] font-semibold mt-1\">Location</span>\n                      </div>\n                  </div>\n              </div>\n          </div>\n        </div>\n      </div>\n\n      <div>\n          <h3 class=\"text-2xl font-bold text-[#f0f6fc] mb-6 flex items-center gap-3\">\n              <svg aria-hidden=\"true\" height=\"24\" viewBox=\"0 0 16 16\" width=\"24\" class=\"fill-[#58a6ff]\"><path d=\"M2 2.5A2.5 2.5 0 0 1 4.5 0h8.75a.75.75 0 0 1 .75.75v12.5a.75.75 0 0 1-.75.75h-2.5a.75.75 0 0 1 0-1.5h1.75v-2h-8a1 1 0 0 0-.714 1.7.75.75 0 1 1-1.072 1.05A2.495 2.495 0 0 1 2 11.5Zm10.5-1H4.5a1 1 0 0 0-1 0.983L9 2.5Zm1.679 5.5H5.117l3.5 1.342ZM8.75 6.5l-4.75 1.825V2.5A1 1 0 0 1 4.5 1.5h8.25Z\"></path></svg>\n              Latest Repositories\n          </h3>\n          \n          <div class=\"grid grid-cols-1 md:grid-cols-2 gap-6 mb-10\">\n              ",
    reposHTML repos,
    "\n          </div>\n          \n          <div class=\"flex justify-center pb-10\">\n              <a href=\"",
    user.html_url,
    "?tab=repositories\" target=\"_blank\" class=\"bg-[#238636] hover:bg-[#2ea043] text-white font-bold py-3 px-8 rounded-lg transition-colors shadow-lg text-base\">\n                  View all repositories on GitHub\n              </a>\n          </div>\n      </div>\n\n    </div>\n  "]

/-- The renderer: builds the full profile HTML string from the user
object and the repository array.  The source function assigns this
string to `mainContainer.innerHTML` as its single final step; the
assignment is modelled in the controller (`handleQuery`), so the
renderer itself is the pure string construction. -/
def renderProfile (user : UserJson) (repos : List RepoJson) : String :=
  strJoin (profileParts user repos)

/-- Fixed error panel injected by the catch branch of
`getUserProfile`. -/
def errorPanelHTML : String :=
  "\n      <div class=\"bg-[#161b22] border border-[#30363d] rounded-xl p-10 text-center shadow-lg max-w-lg mx-auto\">\n        <div class=\"inline-flex items-center justify-center w-16 h-16 rounded-full bg-[#30363d] text-[#8b949e] mb-6\">\n          <svg xmlns=\"http://www.w3.org/2000/svg\" fill=\"none\" viewBox=\"0 0 24 24\" stroke-width=\"1.5\" stroke=\"currentColor\" class=\"w-8 h-8\">\n            <path stroke-linecap=\"round\" stroke-linejoin=\"round\" d=\"M21 21l-5.197-5.197m0 0A7.5 7.5 0 105.196 5.196a7.5 7.5 0 0010.607 10.607z\" />\n          </svg>\n        </div>\n        <h3 class=\"text-xl font-bold text-[#f0f6fc] mb-2\">User not found</h3>\n        <p class=\"text-[#8b949e] text-base\">\n            The username you entered doesn\x27t seem to exist on GitHub. <br>Please check the spelling and try again.\n        </p>\n      </div>"

/-- User-lookup endpoint URL. -/
def userUrl (username : String) : String :=
  "https://api.github.com/users/" ++ username

/-- Repository-listing endpoint URL, with the sort and page-size query
parameters from the source. -/
def reposUrl (username : String) : String :=
  "https://api.github.com/users/" ++ username ++ "/repos?sort=updated&per_page=6"

/-- Closed set of failure kinds a query can terminate with.  Each
constructor corresponds to one distinct throw site in the source:
`notFound` for the explicit `throw new Error("User not found")` on a
non-ok lookup response, `network` for a rejected `fetch` (transport
failure), and `malformedResponse` for a rejected `response.json()`
(payload not parseable as the expected structured format). -/
inductive FetchError where
  | notFound : FetchError
  | network : FetchError
  | malformedResponse : FetchError
deriving DecidableEq

/-- An HTTP response: its status code, and its parsed body, where
`none` means the body cannot be parsed as the expected structure. -/
structure HttpResp (α : Type) where
  status : Nat
  body : Option α
deriving DecidableEq

/-- The `Response.ok` flag of the fetch API: status in the 200--299
range. -/
def HttpResp.isOk (r : HttpResp α) : Bool :=
  decide (200 ≤ r.status ∧ r.status ≤ 299)

/-- Outcome of one `fetch` call: either a response arrives, or the
transport fails and the promise rejects. -/
inductive FetchOutcome (α : Type) where
  | resp : HttpResp α → FetchOutcome α
  | netError : FetchOutcome α
deriving DecidableEq

/-- Network oracle for one query: the outcome each of the two
endpoints would give if requested. -/
structure Network where
  userResp : FetchOutcome UserJson
  reposResp : FetchOutcome (List RepoJson)

/-- The fetch workflow of `getUserProfile`, without the final render
or catch step: the list of request URLs actually issued, in order,
paired with the result.  Mirrors the source control flow: fetch the
user URL; a transport failure throws (network); a non-ok response
throws "User not found" before the body is read; a body that does not
parse throws (malformed); only then is the repos URL fetched, whose
transport failure or unparseable body throws likewise; its status is
never checked. -/
def getUserProfile (username : String) (net : Network) :
    List String × Except FetchError (UserJson × List RepoJson) :=
  match net.userResp with
  | .netError => ([userUrl username], .error .network)
  | .resp ur =>
    if ur.isOk then
      match ur.body with
      | none => ([userUrl username], .error .malformedResponse)
      | some userData =>
        match net.reposResp with
        | .netError => ([userUrl username, reposUrl username], .error .network)
        | .resp rr =>
          match rr.body with
          | none => ([userUrl username, reposUrl username], .error .malformedResponse)
          | some reposData =>
            ([userUrl username, reposUrl username], .ok (userData, reposData))
    else ([userUrl username], .error .notFound)

/-- The full body of `getUserProfile` including its try/catch: on
success the display target receives the rendered profile, on any
caught error it receives the fixed error panel.  Returns the issued
requests and the new display content. -/
def handleQuery (username : String) (net : Network) : List String × String :=
  match getUserProfile username net with
  | (reqs, .ok (userData, reposData)) => (reqs, renderProfile userData reposData)
  | (reqs, .error _) => (reqs, errorPanelHTML)

/-- The form-submission listener: trim the raw input; when the trimmed
username is truthy (non-empty) run the query, otherwise do nothing.
Takes the current display content and returns the issued requests and
the display content afterwards. -/
def submit (raw : String) (net : Network) (display : String) : List String × String :=
  let username := jsTrim raw
  if username = "" then ([], display)
  else handleQuery username net

/-- Sample user object for concrete instantiations, shaped like the
`octocat` scenario of the specification. -/
def sampleUser : UserJson :=
  { login := "octocat"
    name := none
    avatar_url := "https://avatars.githubusercontent.com/u/583231"
    bio := none
    location := none
    created_at := "2011-01-25T18:44:36Z"
    public_repos := 8
    followers := 3938
    following := 9
    html_url := "https://github.com/octocat" }

/-- Sample repository object for concrete instantiations. -/
def sampleRepo : RepoJson :=
  { name := "Hello-World"
    html_url := "https://github.com/octocat/Hello-World"
    visibility := "public"
    description := none
    language := none
    stargazers_count := 1
    forks_count := 2
    updated_at := "2024-03-05T12:00:00Z" }

/-- Sample network oracle on which both requests succeed. -/
def sampleNet : Network :=
  { userResp := .resp { status := 200, body := some sampleUser }
    reposResp := .resp { status := 200, body := some [sampleRepo] } }

/-- Sample network oracle on which the user lookup returns 404. -/
def notFoundNet : Network :=
  { userResp := .resp { status := 404, body := none }
    reposResp := .resp { status := 200, body := some [sampleRepo] } }

/-- Sample network oracle on which the transport fails. -/
def downNet : Network :=
  { userResp := .netError
    reposResp := .netError }

theorem contains_self (s : String) : containsStr s s := by
  refine ⟨"", "", ?_⟩
  rw [String.append_empty, String.empty_append]

theorem contains_append_left {s p : String} (t : String) (h : containsStr s p) :
    containsStr (t ++ s) p := by
  obtain ⟨a, b, hab⟩ := h
  refine ⟨t ++ a, b, ?_⟩
  rw [hab]
  simp [String.append_assoc]

theorem contains_append_right {s p : String} (t : String) (h : containsStr s p) :
    containsStr (s ++ t) p := by
  obtain ⟨a, b, hab⟩ := h
  refine ⟨a, b ++ t, ?_⟩
  rw [hab]
  simp [String.append_assoc]

theorem contains_trans {s t p : String} (hst : containsStr s t) (htp : containsStr t p) :
    containsStr s p := by
  obtain ⟨a, b, hab⟩ := hst
  obtain ⟨c, d, hcd⟩ := htp
  refine ⟨a ++ c, d ++ b, ?_⟩
  rw [hab, hcd]
  simp [String.append_assoc]

theorem contains_strJoin_of_mem {p : String} {l : List String} (h : p ∈ l) :
    containsStr (strJoin l) p := by
  induction l with
  | nil => cases h
  | cons x xs ih =>
    rcases List.mem_cons.mp h with hx | hxs
    · subst hx
      exact contains_append_right (strJoin xs) (contains_self p)
    · exact contains_append_left x (ih hxs)

theorem renderProfile_contains_part {u : UserJson} {repos : List RepoJson} {p : String}
    (h : p ∈ profileParts u repos) : containsStr (renderProfile u repos) p :=
  contains_strJoin_of_mem h

theorem renderRepoCard_contains_part {r : RepoJson} {p : String}
    (h : p ∈ repoCardParts r) : containsStr (renderRepoCard r) p :=
  contains_strJoin_of_mem h

theorem userUrl_ne_reposUrl (username : String) : userUrl username ≠ reposUrl username := by
  intro h
  have hl := congrArg String.length h
  have h30 : ("/repos?sort=updated&per_page=6" : String).length = 30 := by decide
  simp only [userUrl, reposUrl, String.length_append, h30] at hl
  omega

/-- C1: when the profile lookup returns a not-found status, the fetch
fails immediately with `FetchError.notFound` and the
repository-listing request is never issued; conversely, the repos
request appears in the request trace only when the profile request
came back with an ok status. -/
theorem c1_notFound_skips_repos_request (username : String) (net : Network) :
    (∀ ur : HttpResp UserJson, net.userResp = .resp ur → ur.status = 404 →
      getUserProfile username net = ([userUrl username], .error .notFound) ∧
      reposUrl username ∉ (getUserProfile username net).1) ∧
    (reposUrl username ∈ (getUserProfile username net).1 →
      ∃ ur : HttpResp UserJson, net.userResp = .resp ur ∧ ur.isOk = true) := by
  constructor
  · intro ur hresp hstat
    have hok : ur.isOk = false := by
      simp [HttpResp.isOk, hstat]
    constructor
    · simp [getUserProfile, hresp, hok]
    · simp only [getUserProfile, hresp, hok, Bool.false_eq_true, if_false]
      intro hmem
      exact userUrl_ne_reposUrl username (List.mem_singleton.mp hmem).symm
  · intro hmem
    cases hnet : net.userResp with
    | netError =>
      simp only [getUserProfile, hnet] at hmem
      exact absurd (List.mem_singleton.mp hmem).symm (userUrl_ne_reposUrl username)
    | resp ur =>
      by_cases hok : ur.isOk = true
      · exact ⟨ur, rfl, hok⟩
      · simp only [getUserProfile, hnet] at hmem
        rw [if_neg hok] at hmem
        exact absurd (List.mem_singleton.mp hmem).symm (userUrl_ne_reposUrl username)

/-- Witness for C1 at the 404 oracle `notFoundNet` and at a trace
membership on the successful oracle `sampleNet`. -/
theorem c1_witness :
    (getUserProfile "octocat" notFoundNet
        = ([userUrl "octocat"], .error .notFound) ∧
      reposUrl "octocat" ∉ (getUserProfile "octocat" notFoundNet).1) ∧
    ∃ ur : HttpResp UserJson, sampleNet.userResp = .resp ur ∧ ur.isOk = true :=
  ⟨(c1_notFound_skips_repos_request "octocat" notFoundNet).1
      { status := 404, body := none } rfl rfl,
    (c1_notFound_skips_repos_request "octocat" sampleNet).2
      (by right; exact List.mem_singleton.mpr rfl)⟩

/-- C2: a submitted query that trims to the empty string issues no
network request and leaves the display content unchanged. -/
theorem c2_empty_query_is_inert (raw : String) (net : Network) (display : String)
    (h : jsTrim raw = "") :
    submit raw net display = ([], display) := by
  simp [submit, h]

/-- Witness for C2 on a whitespace-only query. -/
theorem c2_witness :
    jsTrim "   " = "" ∧ submit "   " downNet "previous content" = ([], "previous content") :=
  ⟨by decide, c2_empty_query_is_inert "   " downNet "previous content" (by decide)⟩

/-- C4: on every failure kind the controller replaces the display
target with the one fixed error panel; after any submission the
display is in one of three complete states (unchanged, error panel,
or a fully rendered profile), never partially rendered; and a fresh
query submitted while the error panel is displayed still runs and
renders normally. -/
theorem c4_failure_replaces_display (username raw : String) (net : Network)
    (display : String) :
    (∀ e : FetchError, (getUserProfile username net).2 = .error e →
      (handleQuery username net).2 = errorPanelHTML) ∧
    ((submit raw net display).2 = display ∨
      (submit raw net display).2 = errorPanelHTML ∨
      ∃ (u : UserJson) (rs : List RepoJson),
        (submit raw net display).2 = renderProfile u rs) ∧
    (∀ (raw2 : String) (net2 : Network) (ur : HttpResp UserJson) (u : UserJson)
        (rr : HttpResp (List RepoJson)) (rs : List RepoJson),
      jsTrim raw2 ≠ "" →
      net2.userResp = .resp ur → ur.isOk = true → ur.body = some u →
      net2.reposResp = .resp rr → rr.body = some rs →
      (submit raw2 net2 errorPanelHTML).2 = renderProfile u rs) := by
  refine ⟨?_, ?_, ?_⟩
  · intro e he
    rcases hg : getUserProfile username net with ⟨reqs, res⟩
    rw [hg] at he
    cases res with
    | ok v => exact absurd he (by simp)
    | error e2 => simp [handleQuery, hg]
  · by_cases hempty : jsTrim raw = ""
    · left
      simp [submit, hempty]
    · rcases hg : getUserProfile (jsTrim raw) net with ⟨reqs, res⟩
      cases res with
      | ok v =>
        right; right
        exact ⟨v.1, v.2, by simp [submit, hempty, handleQuery, hg]⟩
      | error e =>
        right; left
        simp [submit, hempty, handleQuery, hg]
  · intro raw2 net2 ur u rr rs hne hresp hok hbody hrepos hrbody
    simp [submit, hne, handleQuery, getUserProfile, hresp, hok, hbody, hrepos, hrbody]

/-- Witness for C4: the transport-failure oracle yields the error
panel, and a following query on the successful oracle renders the
profile again. -/
theorem c4_witness :
    (handleQuery "octocat" downNet).2 = errorPanelHTML ∧
    (submit "octocat" sampleNet errorPanelHTML).2 = renderProfile sampleUser [sampleRepo] :=
  ⟨(c4_failure_replaces_display "octocat" "octocat" downNet "").1 .network rfl,
    (c4_failure_replaces_display "octocat" "octocat" downNet "").2.2 "octocat" sampleNet
      { status := 200, body := some sampleUser } sampleUser
      { status := 200, body := some [sampleRepo] } [sampleRepo]
      (by decide) rfl rfl rfl rfl rfl⟩

/-- C5: the repository-listing URL carries the sort-by-update and
page-size-6 query parameters; every successfully returned repository
list is exactly the list received from the upstream service (no
client-side re-sorting or other change), so whenever the upstream
honours the requested server-side cap the returned list has at most 6
entries. -/
theorem c5_repos_request_sorted_capped (username : String) (net : Network) :
    containsStr (reposUrl username) "sort=updated" ∧
    containsStr (reposUrl username) "per_page=6" ∧
    (∀ (u : UserJson) (rs : List RepoJson),
      (getUserProfile username net).2 = .ok (u, rs) →
      (∃ rr : HttpResp (List RepoJson), net.reposResp = .resp rr ∧ rr.body = some rs) ∧
      ((∀ (rr : HttpResp (List RepoJson)) (ls : List RepoJson),
          net.reposResp = .resp rr → rr.body = some ls → ls.length ≤ 6) →
        rs.length ≤ 6)) := by
  refine ⟨?_, ?_, ?_⟩
  · refine ⟨"https://api.github.com/users/" ++ username ++ "/repos?", "&per_page=6", ?_⟩
    simp only [reposUrl, String.append_assoc]
    congr 1
  · refine ⟨"https://api.github.com/users/" ++ username ++ "/repos?sort=updated&", "", ?_⟩
    rw [String.append_empty]
    simp only [reposUrl, String.append_assoc]
    congr 1
  · intro u rs hok2
    cases hnet : net.userResp with
    | netError => rw [getUserProfile, hnet] at hok2; simp at hok2
    | resp ur =>
      by_cases hok : ur.isOk = true
      · cases hbody : ur.body with
        | none => rw [getUserProfile, hnet] at hok2; simp [hok, hbody] at hok2
        | some userData =>
          cases hrepos : net.reposResp with
          | netError =>
            rw [getUserProfile, hnet] at hok2
            simp [hok, hbody, hrepos] at hok2
          | resp rr =>
            cases hrbody : rr.body with
            | none =>
              rw [getUserProfile, hnet] at hok2
              simp [hok, hbody, hrepos, hrbody] at hok2
            | some reposData =>
              rw [getUserProfile, hnet] at hok2
              simp only [hok, if_true, hbody, hrepos, hrbody] at hok2
              have hrs : reposData = rs := by
                have := hok2
                simp at this
                exact this.2
              subst hrs
              refine ⟨⟨rr, rfl, hrbody⟩, ?_⟩
              intro hcap
              exact hcap rr reposData rfl hrbody
      · rw [getUserProfile, hnet] at hok2
        simp [hok] at hok2

/-- Witness for C5: on the sample oracle the returned list is the
received one-element list, of length at most 6. -/
theorem c5_witness :
    (∃ rr : HttpResp (List RepoJson),
      sampleNet.reposResp = .resp rr ∧ rr.body = some [sampleRepo]) ∧
    ([sampleRepo] : List RepoJson).length ≤ 6 :=
  ⟨((c5_repos_request_sorted_capped "octocat" sampleNet).2.2 sampleUser [sampleRepo] rfl).1,
    ((c5_repos_request_sorted_capped "octocat" sampleNet).2.2 sampleUser [sampleRepo] rfl).2
      (fun rr ls h1 h2 => by
        cases h1
        cases h2
        decide)⟩

/-- C6: the renderer is deterministic: identical profile and
repository inputs produce identical output.  The embedding models the
renderer as the pure construction of the display string, mutating
nothing; the single assignment of that string to the display target
is performed by the controller. -/
theorem c6_renderer_deterministic (u u2 : UserJson) (rs rs2 : List RepoJson)
    (hu : u = u2) (hr : rs = rs2) :
    renderProfile u rs = renderProfile u2 rs2 := by
  rw [hu, hr]

/-- Witness for C6 at the sample profile and repository list. -/
theorem c6_witness :
    renderProfile sampleUser [sampleRepo] = renderProfile sampleUser [sampleRepo] :=
  c6_renderer_deterministic sampleUser sampleUser [sampleRepo] [sampleRepo] rfl rfl

/-- C3: every failure is one of the three kinds `notFound`, `network`,
`malformedResponse`; an unparseable body of either response yields
`malformedResponse`; a transport failure of either request yields
`network`; and the three kinds are pairwise distinct values. -/
theorem c3_error_taxonomy (username : String) (net : Network) :
    (∀ e : FetchError, (getUserProfile username net).2 = .error e →
      e = .notFound ∨ e = .network ∨ e = .malformedResponse) ∧
    (net.userResp = .netError →
      (getUserProfile username net).2 = .error .network) ∧
    (∀ ur : HttpResp UserJson, net.userResp = .resp ur → ur.isOk = true →
      ur.body = none →
      (getUserProfile username net).2 = .error .malformedResponse) ∧
    (∀ (ur : HttpResp UserJson) (u : UserJson), net.userResp = .resp ur →
      ur.isOk = true → ur.body = some u → net.reposResp = .netError →
      (getUserProfile username net).2 = .error .network) ∧
    (∀ (ur : HttpResp UserJson) (u : UserJson) (rr : HttpResp (List RepoJson)),
      net.userResp = .resp ur → ur.isOk = true → ur.body = some u →
      net.reposResp = .resp rr → rr.body = none →
      (getUserProfile username net).2 = .error .malformedResponse) ∧
    (FetchError.notFound ≠ FetchError.network ∧
      FetchError.network ≠ FetchError.malformedResponse ∧
      FetchError.notFound ≠ FetchError.malformedResponse) := by
  refine ⟨?_, ?_, ?_, ?_, ?_, by decide⟩
  · intro e _
    cases e
    · exact Or.inl rfl
    · exact Or.inr (Or.inl rfl)
    · exact Or.inr (Or.inr rfl)
  · intro hnet
    simp [getUserProfile, hnet]
  · intro ur hnet hok hbody
    simp [getUserProfile, hnet, hok, hbody]
  · intro ur u hnet hok hbody hrepos
    simp [getUserProfile, hnet, hok, hbody, hrepos]
  · intro ur u rr hnet hok hbody hrepos hrbody
    simp [getUserProfile, hnet, hok, hbody, hrepos, hrbody]

/-- Witness for C3: an unparseable profile body on an ok status yields
the malformed-response error. -/
theorem c3_witness :
    (getUserProfile "octocat"
        { userResp := .resp { status := 200, body := none },
          reposResp := .netError }).2 = .error .malformedResponse :=
  (c3_error_taxonomy "octocat"
      { userResp := .resp { status := 200, body := none },
        reposResp := .netError }).2.2.1
    { status := 200, body := none } rfl rfl rfl

/-- Sample user with every optional field present but empty, to
exercise the truthiness branches. -/
def emptyFieldsUser : UserJson :=
  { sampleUser with name := some "", bio := some "", location := some "" }

/-- Sample user with a present bio. -/
def helloBioUser : UserJson :=
  { sampleUser with bio := some "Hello" }

/-- Sample repository with a recorded language and an empty
description. -/
def goRepo : RepoJson :=
  { sampleRepo with language := some "Go", description := some "" }

/-- C7: every absent optional field renders its fixed non-empty
fallback literal: absent bio renders "This user has no bio.", absent
repository description renders "No description provided.", absent
location renders the "Earth" placeholder, and an absent display name
falls back to the login; a present bio "Hello" is rendered as-is. -/
theorem c7_optional_field_fallbacks (u : UserJson) (repos : List RepoJson) (r : RepoJson) :
    (u.bio = none → containsStr (renderProfile u repos) "This user has no bio.") ∧
    (u.bio = some "Hello" → containsStr (renderProfile u repos) "Hello") ∧
    (u.location = none → containsStr (renderProfile u repos) "Earth") ∧
    (u.name = none → jsOrElse u.name u.login = u.login ∧
      containsStr (renderProfile u repos) u.login) ∧
    (r ∈ repos → r.description = none →
      containsStr (renderProfile u repos) "No description provided.") := by
  have hbio : containsStr (renderProfile u repos) (jsOrElse u.bio "This user has no bio.") :=
    renderProfile_contains_part (by simp [profileParts])
  have hloc : containsStr (renderProfile u repos) (jsOrElse u.location "Earth") :=
    renderProfile_contains_part (by simp [profileParts])
  have hlogin : containsStr (renderProfile u repos) u.login :=
    renderProfile_contains_part (by simp [profileParts])
  refine ⟨?_, ?_, ?_, ?_, ?_⟩
  · intro h
    rw [h] at hbio
    simpa [jsOrElse] using hbio
  · intro h
    rw [h] at hbio
    have heq : jsOrElse (some "Hello") "This user has no bio." = "Hello" := by decide
    rwa [heq] at hbio
  · intro h
    rw [h] at hloc
    simpa [jsOrElse] using hloc
  · intro h
    rw [h]
    exact ⟨by simp [jsOrElse], hlogin⟩
  · intro hr hdesc
    have hcard : containsStr (renderRepoCard r)
        (jsOrElse r.description "No description provided.") :=
      renderRepoCard_contains_part (by simp [repoCardParts])
    rw [hdesc] at hcard
    have hcard2 : containsStr (renderRepoCard r) "No description provided." := by
      simpa [jsOrElse] using hcard
    have hjoin : containsStr (reposHTML repos) (renderRepoCard r) :=
      contains_strJoin_of_mem (List.mem_map_of_mem renderRepoCard hr)
    have hprof : containsStr (renderProfile u repos) (reposHTML repos) :=
      renderProfile_contains_part (by simp [profileParts])
    exact contains_trans (contains_trans hprof hjoin) hcard2

/-- Witness for C7 at the sample user (absent bio, location, name)
and sample repository (absent description), plus the present-bio
case. -/
theorem c7_witness :
    containsStr (renderProfile sampleUser [sampleRepo]) "This user has no bio." ∧
    containsStr (renderProfile sampleUser [sampleRepo]) "Earth" ∧
    containsStr (renderProfile sampleUser [sampleRepo]) "No description provided." ∧
    containsStr (renderProfile helloBioUser []) "Hello" :=
  ⟨(c7_optional_field_fallbacks sampleUser [sampleRepo] sampleRepo).1 rfl,
    (c7_optional_field_fallbacks sampleUser [sampleRepo] sampleRepo).2.2.1 rfl,
    (c7_optional_field_fallbacks sampleUser [sampleRepo] sampleRepo).2.2.2.2
      (List.mem_singleton.mpr rfl) rfl,
    (c7_optional_field_fallbacks helloBioUser [] sampleRepo).2.1 rfl⟩

/-- C8: a repository with no recorded primary language contributes no
language indicator at all (the ternary yields the empty string), and
a repository with language "Go" renders a card containing "Go". -/
theorem c8_language_indicator (u : UserJson) (repos : List RepoJson) (r : RepoJson) :
    (r.language = none → languageHTML r = "") ∧
    (r.language = some "Go" →
      containsStr (renderRepoCard r) "Go" ∧
      (r ∈ repos → containsStr (renderProfile u repos) "Go")) := by
  constructor
  · intro h
    simp [languageHTML, h]
  · intro h
    have hlang : containsStr (languageHTML r) "Go" := by
      refine ⟨"<div class=\"flex items-center gap-1.5\"><span class=\"w-3 h-3 rounded-full bg-yellow-400\"></span>",
        "</div>", ?_⟩
      simp only [languageHTML, h]
      rw [if_neg (by decide : ¬("Go" : String) = "")]
    have hcard : containsStr (renderRepoCard r) "Go" :=
      contains_trans (renderRepoCard_contains_part (by simp [repoCardParts])) hlang
    refine ⟨hcard, fun hr => ?_⟩
    have hjoin : containsStr (reposHTML repos) (renderRepoCard r) :=
      contains_strJoin_of_mem (List.mem_map_of_mem renderRepoCard hr)
    have hprof : containsStr (renderProfile u repos) (reposHTML repos) :=
      renderProfile_contains_part (by simp [profileParts])
    exact contains_trans (contains_trans hprof hjoin) hcard

/-- Witness for C8 at a language-free repository and at a "Go"
repository. -/
theorem c8_witness :
    languageHTML sampleRepo = "" ∧
    containsStr (renderProfile sampleUser [goRepo]) "Go" :=
  ⟨(c8_language_indicator sampleUser [] sampleRepo).1 rfl,
    ((c8_language_indicator sampleUser [goRepo] goRepo).2 rfl).2
      (List.mem_singleton.mpr rfl)⟩

/-- C9: the fallback is driven by JS truthiness, not absence: a
present-but-empty bio, location, description renders the fallback
literal, and a present-but-empty display name falls back to the
login. -/
theorem c9_empty_string_falls_back (u : UserJson) (repos : List RepoJson) (r : RepoJson) :
    (u.bio = some "" → containsStr (renderProfile u repos) "This user has no bio.") ∧
    (u.location = some "" → containsStr (renderProfile u repos) "Earth") ∧
    (u.name = some "" → jsOrElse u.name u.login = u.login) ∧
    (r ∈ repos → r.description = some "" →
      containsStr (renderProfile u repos) "No description provided.") := by
  have hbio : containsStr (renderProfile u repos) (jsOrElse u.bio "This user has no bio.") :=
    renderProfile_contains_part (by simp [profileParts])
  have hloc : containsStr (renderProfile u repos) (jsOrElse u.location "Earth") :=
    renderProfile_contains_part (by simp [profileParts])
  refine ⟨?_, ?_, ?_, ?_⟩
  · intro h
    rw [h] at hbio
    simpa [jsOrElse] using hbio
  · intro h
    rw [h] at hloc
    simpa [jsOrElse] using hloc
  · intro h
    rw [h]
    simp [jsOrElse]
  · intro hr hdesc
    have hcard : containsStr (renderRepoCard r)
        (jsOrElse r.description "No description provided.") :=
      renderRepoCard_contains_part (by simp [repoCardParts])
    rw [hdesc] at hcard
    have hcard2 : containsStr (renderRepoCard r) "No description provided." := by
      simpa [jsOrElse] using hcard
    have hjoin : containsStr (reposHTML repos) (renderRepoCard r) :=
      contains_strJoin_of_mem (List.mem_map_of_mem renderRepoCard hr)
    have hprof : containsStr (renderProfile u repos) (reposHTML repos) :=
      renderProfile_contains_part (by simp [profileParts])
    exact contains_trans (contains_trans hprof hjoin) hcard2

/-- Witness for C9 at a user whose optional fields are all present
but empty, and a repository with empty description. -/
theorem c9_witness :
    containsStr (renderProfile emptyFieldsUser [goRepo]) "This user has no bio." ∧
    containsStr (renderProfile emptyFieldsUser [goRepo]) "Earth" ∧
    jsOrElse emptyFieldsUser.name emptyFieldsUser.login = emptyFieldsUser.login ∧
    containsStr (renderProfile emptyFieldsUser [goRepo]) "No description provided." :=
  ⟨(c9_empty_string_falls_back emptyFieldsUser [goRepo] goRepo).1 rfl,
    (c9_empty_string_falls_back emptyFieldsUser [goRepo] goRepo).2.1 rfl,
    (c9_empty_string_falls_back emptyFieldsUser [goRepo] goRepo).2.2.1 rfl,
    (c9_empty_string_falls_back emptyFieldsUser [goRepo] goRepo).2.2.2
      (List.mem_singleton.mpr rfl) rfl⟩

/-- C10: the renderer emits exactly one card per array element, keeps
the array order (the head card is emitted before the rest), and
applies no client-side truncation: every element of an arbitrarily
long array has its card in the output, so the 6-entry bound rests
solely on the server honouring the per_page parameter. -/
theorem c10_renderer_no_truncation (u : UserJson) (repos : List RepoJson) :
    (repos.map renderRepoCard).length = repos.length ∧
    (∀ (r : RepoJson) (rest : List RepoJson),
      reposHTML (r :: rest) = renderRepoCard r ++ reposHTML rest) ∧
    (∀ r ∈ repos, containsStr (renderProfile u repos) (renderRepoCard r)) := by
  refine ⟨by simp, fun r rest => rfl, fun r hr => ?_⟩
  have hjoin : containsStr (reposHTML repos) (renderRepoCard r) :=
    contains_strJoin_of_mem (List.mem_map_of_mem renderRepoCard hr)
  have hprof : containsStr (renderProfile u repos) (reposHTML repos) :=
    renderProfile_contains_part (by simp [profileParts])
  exact contains_trans hprof hjoin

/-- Witness for C10 on a seven-element repository array: seven cards
are produced and the card of each element occurs in the output. -/
theorem c10_witness :
    ((List.replicate 7 sampleRepo).map renderRepoCard).length = 7 ∧
    containsStr (renderProfile sampleUser (List.replicate 7 sampleRepo))
      (renderRepoCard sampleRepo) :=
  ⟨by rw [(c10_renderer_no_truncation sampleUser (List.replicate 7 sampleRepo)).1]; rfl,
    (c10_renderer_no_truncation sampleUser (List.replicate 7 sampleRepo)).2.2 sampleRepo
      (by simp)⟩
